import Mathlib

/-!
Verification development for the tunestream-backend music-provider layer.

The JavaScript sources are shallowly embedded:
* JS numbers used as counts/limits are `Int` (the routes call `parseInt` on
  query parameters, which can produce negative values).
* JS `undefined`/missing object fields are `Option`.
* Upstream HTTP calls are oracles: functions from the request parameters to
  `Except Unit <raw records>`; `.error` is a rejected promise / thrown error.
* `Math.random()` draws are abstracted by a `DemoRand` stream of draws,
  one independent stream per call site, with the exact ranges the JS
  expressions produce (`Math.floor(Math.random() * 120) : Fin 120`, …).
* Wall-clock fields (`created_at`, `updated_at`, response timestamps) are
  omitted: no claim mentions them and they depend on the clock.
* The 1-hour NodeCache in musicService.js only memoizes a previously
  computed result for identical parameters and is elided.
-/

/-- JS `Array.prototype.slice(0, stop)`: a negative `stop` counts from the
end of the array (`max(length + stop, 0)`), a non-negative `stop` is clamped
to the length.  `List.take` already clamps at the length. -/
def jsSliceTo (l : List α) (stop : Int) : List α :=
  if stop < 0 then l.take (((l.length : Int) + stop).toNat) else l.take stop.toNat

/-- JS `String.prototype.toLowerCase` restricted to ASCII letters.  Every
string literal in the demo catalog has no non-ASCII uppercase characters, so
this agrees with the Unicode-aware JS function on all inputs that occur. -/
def jsToLower (s : String) : String :=
  s.map fun c => if 'A' ≤ c ∧ c ≤ 'Z' then Char.ofNat (c.toNat + 32) else c

/-- Substring containment on character lists: `needle` occurs contiguously
somewhere in the scanned list. -/
def listIncludes (needle : List Char) : List Char → Bool
  | [] => needle.isEmpty
  | c :: rest => needle.isPrefixOf (c :: rest) || listIncludes needle rest

/-- JS `hay.includes(needle)`: substring containment. -/
def jsIncludes (hay needle : String) : Bool :=
  listIncludes needle.data hay.data

/-- JS `a || b` for two possibly-undefined strings: an absent or empty
(falsy) `a` falls through to `b`. -/
def jsOrOpt (a b : Option String) : Option String :=
  match a with
  | some s => if s = "" then b else some s
  | none => b

/-- JS `a || d` where `a` is a possibly-undefined string and `d` a default:
absent or empty `a` yields `d`. -/
def jsOrString (a : Option String) (d : String) : String :=
  match a with
  | some s => if s = "" then d else s
  | none => d

/-- JS `a || d` for a possibly-undefined number (`0` is falsy). -/
def jsOrInt (a : Option Int) (d : Int) : Int :=
  match a with
  | some n => if n = 0 then d else n
  | none => d

/-- First-occurrence replacement on character lists, the semantics of JS
`String.prototype.replace` with a string pattern. -/
def listReplaceFirst (pat repl : List Char) : List Char → List Char
  | [] => []
  | c :: rest =>
    if pat.isPrefixOf (c :: rest) then repl ++ (c :: rest).drop pat.length
    else c :: listReplaceFirst pat repl rest

/-- JS `s.replace(pat, repl)` (string pattern: first occurrence only). -/
def jsReplaceFirst (pat repl s : String) : String :=
  ⟨listReplaceFirst pat.data repl.data s.data⟩

/-- The normalized track shape produced by the provider adapters.  Fields a
given adapter does not set are `none` (JS `undefined`). -/
structure Track where
  id : String
  title : String
  artist : String
  album : String
  duration : Int
  audio_url : Option String
  cover_url : Option String
  genre : String
  source : Option String
  release_date : Option String
  external_url : Option String
  popularity : Option Int
  explicit : Option Bool
  artist_id : Option String
  album_id : Option String
  isrc : Option String
deriving Repr, DecidableEq

/-- The `{ tracks, total, hasNext, hasPrevious }` search envelope. -/
structure SearchResult where
  tracks : List Track
  total : Nat
  hasNext : Bool
  hasPrevious : Bool
deriving Repr, DecidableEq

/-- A music category (`{ id, name, image }`). -/
structure Category where
  id : String
  name : String
  image : String
deriving Repr, DecidableEq

/-! ## Demo provider (src/services/demoMusicService.js) -/

/-- One `(title, artist, album)` entry of the demo catalog. -/
structure SongSeed where
  title : String
  artist : String
  album : String
deriving Repr, DecidableEq

/-- The fixed `popularSongs` catalog of `getTrendingTracks`. -/
def popularSongs : List SongSeed :=
  [ ⟨"Shape of You", "Ed Sheeran", "÷ (Divide)"⟩
  , ⟨"Blinding Lights", "The Weeknd", "After Hours"⟩
  , ⟨"Watermelon Sugar", "Harry Styles", "Fine Line"⟩
  , ⟨"Good 4 U", "Olivia Rodrigo", "SOUR"⟩
  , ⟨"Levitating", "Dua Lipa", "Future Nostalgia"⟩
  , ⟨"Stay", "The Kid LAROI", "F*CK LOVE 3"⟩
  , ⟨"Heat Waves", "Glass Animals", "Dreamland"⟩
  , ⟨"As It Was", "Harry Styles", "Harrys House"⟩
  , ⟨"Anti-Hero", "Taylor Swift", "Midnights"⟩
  , ⟨"Flowers", "Miley Cyrus", "Endless Summer Vacation"⟩
  , ⟨"Unholy", "Sam Smith", "Gloria"⟩
  , ⟨"Bad Habit", "Steve Lacy", "Gemini Rights"⟩
  , ⟨"About Damn Time", "Lizzo", "About Damn Time"⟩
  , ⟨"Running Up That Hill", "Kate Bush", "Hounds of Love"⟩
  , ⟨"Glimpse of Us", "Joji", "Glimpse of Us"⟩
  , ⟨"Left and Right", "Charlie Puth", "Left and Right"⟩
  , ⟨"First Class", "Jack Harlow", "Come Home The Kids Miss You"⟩
  , ⟨"Break My Soul", "Beyoncé", "Renaissance"⟩
  , ⟨"Sunroof", "Nicky Youre", "Sunroof"⟩
  , ⟨"Late Night Talking", "Harry Styles", "Harrys House"⟩ ]

/-- The genre pool drawn from in `getTrendingTracks`. -/
def demoGenres : List String := ["Pop", "Rock", "Hip-Hop", "Electronic", "Indie"]

/-- One `Math.random()` stream per call site of the demo generator, with the
exact range each JS expression produces:
`Math.floor(Math.random() * 120)`, `Math.floor(Math.random() * 30)`,
`Math.random() > 0.8`, `Math.floor(Math.random() * 5)`,
`Math.floor(Math.random() * 4)`, `Math.floor(Math.random() * 12)`. -/
structure DemoRand where
  durDraw : Nat → Fin 120
  popDraw : Nat → Fin 30
  explicitDraw : Nat → Bool
  genreDraw : Nat → Fin 5
  yearDraw : Nat → Fin 4
  monthDraw : Nat → Fin 12

/-- The all-zero randomness stream, used for concrete evaluations. -/
def zeroRand : DemoRand :=
  ⟨fun _ => 0, fun _ => 0, fun _ => false, fun _ => 0, fun _ => 0, fun _ => 0⟩

/-- JS `String(n).padStart(2, '0')` for the month number. -/
def pad2 (n : Nat) : String :=
  if n < 10 then "0" ++ toString n else toString n

/-- `popularSongs[i % popularSongs.length]`. -/
def seedAt (i : Nat) : SongSeed :=
  popularSongs.get ⟨i % popularSongs.length, Nat.mod_lt _ (by decide)⟩

/-- The track object pushed at loop index `i` of
`DemoMusicService.getTrendingTracks`. -/
def mkDemoTrack (r : DemoRand) (i : Nat) : Track :=
  let song := seedAt i
  { id := "demo_" ++ toString (i + 1)
  , title := song.title
  , artist := song.artist
  , album := song.album
  , cover_url := some ("https://picsum.photos/300/300?random=" ++ toString (i + 1) ++ "&blur=1")
  , audio_url := none
  , duration := 180 + ((r.durDraw i : Nat) : Int)
  , external_url := some "https://open.spotify.com"
  , popularity := some (((70 + (r.popDraw i : Nat) : Nat)) : Int)
  , explicit := some (r.explicitDraw i)
  , genre := demoGenres.get ⟨(r.genreDraw i).val, (r.genreDraw i).isLt⟩
  , release_date := some ("202" ++ toString (r.yearDraw i).val ++ "-" ++
      pad2 ((r.monthDraw i).val + 1) ++ "-01")
  , artist_id := some ("artist_" ++ toString (i % 10))
  , album_id := some ("album_" ++ toString (i % 15))
  , source := none
  , isrc := none }

/-- `DemoMusicService.getTrendingTracks(limit = 50)`: a `for` loop pushing
one track per `i < limit`. -/
def demoGetTrendingTracks (r : DemoRand) (limitArg : Option Int) : List Track :=
  let limit := limitArg.getD 50
  (List.range limit.toNat).map (mkDemoTrack r)

/-- The case-insensitive title/artist/album substring filter of
`DemoMusicService.searchTracks`. -/
def demoMatches (query : String) (t : Track) : Bool :=
  jsIncludes (jsToLower t.title) (jsToLower query) ||
  jsIncludes (jsToLower t.artist) (jsToLower query) ||
  jsIncludes (jsToLower t.album) (jsToLower query)

/-- `DemoMusicService.searchTracks(query, limit = 20)`: generate a pool of
100 trending tracks, filter, slice. -/
def demoSearchTracks (r : DemoRand) (query : String) (limitArg : Option Int) : SearchResult :=
  let limit := limitArg.getD 20
  let allTracks := demoGetTrendingTracks r (some 100)
  let filteredTracks := allTracks.filter (demoMatches query)
  { tracks := jsSliceTo filteredTracks limit
  , total := filteredTracks.length
  , hasNext := decide (limit < (filteredTracks.length : Int))
  , hasPrevious := false }

/-- The fixed 8-entry category catalog of `DemoMusicService.getCategories`. -/
def demoCategories : List Category :=
  [ ⟨"pop", "Pop", "https://picsum.photos/300/300?random=cat1"⟩
  , ⟨"rock", "Rock", "https://picsum.photos/300/300?random=cat2"⟩
  , ⟨"hip-hop", "Hip-Hop", "https://picsum.photos/300/300?random=cat3"⟩
  , ⟨"electronic", "Electronic", "https://picsum.photos/300/300?random=cat4"⟩
  , ⟨"indie", "Indie", "https://picsum.photos/300/300?random=cat5"⟩
  , ⟨"r-b", "R&B", "https://picsum.photos/300/300?random=cat6"⟩
  , ⟨"country", "Country", "https://picsum.photos/300/300?random=cat7"⟩
  , ⟨"jazz", "Jazz", "https://picsum.photos/300/300?random=cat8"⟩ ]

/-- `DemoMusicService.getCategories(limit = 20)`. -/
def demoGetCategories (limitArg : Option Int) : List Category :=
  jsSliceTo demoCategories (limitArg.getD 20)

/-- `DemoMusicService.getRecommendations(seedGenres = ['pop'], limit = 20)`:
the seed genres are only logged, never used. -/
def demoGetRecommendations (r : DemoRand) (seedGenres : Option (List String))
    (limitArg : Option Int) : List Track :=
  let _seeds := seedGenres.getD ["pop"]
  let tracks := demoGetTrendingTracks r (some 50)
  jsSliceTo tracks (limitArg.getD 20)

/-! ## Aggregate Jamendo + iTunes provider (src/services/musicService.js)

Upstream HTTP calls are oracles `query → limit → Except Unit <raw records>`;
`.error` stands for a rejected axios promise (network error, non-2xx, …). -/

/-- A raw Jamendo API track record, with the fields musicService.js reads.
`genre0` is `track.musicinfo?.tags?.genres?.[0]?.genre_name` (the optional
chain collapsed to the one value that is used). -/
structure JamendoRaw where
  id : String
  name : String
  artist_name : String
  album_name : String
  duration : Int
  audio : Option String
  album_image : Option String
  image : Option String
  genre0 : Option String
  releasedate : Option String
deriving Repr, DecidableEq

/-- A raw iTunes Search API record, with the fields musicService.js reads. -/
structure ItunesRaw where
  trackId : Int
  trackName : String
  artistName : String
  collectionName : String
  trackTimeMillis : Int
  previewUrl : Option String
  artworkUrl100 : Option String
  primaryGenreName : String
deriving Repr, DecidableEq

/-- The per-record mapping in `MusicService.searchJamendo`: note the
`jamendo_` id namespace. -/
def jamendoSearchTrack (t : JamendoRaw) : Track :=
  { id := "jamendo_" ++ t.id
  , title := t.name
  , artist := t.artist_name
  , album := t.album_name
  , duration := t.duration
  , audio_url := t.audio
  , cover_url := jsOrOpt t.album_image t.image
  , genre := jsOrString t.genre0 "Unknown"
  , source := some "jamendo"
  , release_date := none
  , external_url := none
  , popularity := none
  , explicit := none
  , artist_id := none
  , album_id := none
  , isrc := none }

/-- The per-record mapping in `MusicService.getTrendingSongs`: the upstream
id is passed through unchanged (no `jamendo_` namespace). -/
def jamendoTrendingTrack (t : JamendoRaw) : Track :=
  { id := t.id
  , title := t.name
  , artist := t.artist_name
  , album := t.album_name
  , duration := t.duration
  , audio_url := t.audio
  , cover_url := jsOrOpt t.album_image t.image
  , genre := jsOrString t.genre0 "Unknown"
  , source := some "jamendo"
  , release_date := t.releasedate
  , external_url := none
  , popularity := none
  , explicit := none
  , artist_id := none
  , album_id := none
  , isrc := none }

/-- The per-record mapping in `MusicService.getSongsByGenre`: raw upstream
id, genre overwritten with the request's genre. -/
def jamendoGenreTrack (genre : String) (t : JamendoRaw) : Track :=
  { jamendoTrendingTrack t with genre := genre, release_date := none }

/-- The per-record mapping in `MusicService.searchItunes`: note the
`itunes_` id namespace and the millisecond-to-second floor division. -/
def itunesSearchTrack (t : ItunesRaw) : Track :=
  { id := "itunes_" ++ toString t.trackId
  , title := t.trackName
  , artist := t.artistName
  , album := t.collectionName
  , duration := t.trackTimeMillis.fdiv 1000
  , audio_url := t.previewUrl
  , cover_url := t.artworkUrl100.map (jsReplaceFirst "100x100" "300x300")
  , genre := t.primaryGenreName
  , source := some "itunes"
  , release_date := none
  , external_url := none
  , popularity := none
  , explicit := none
  , artist_id := none
  , album_id := none
  , isrc := none }

/-- `MusicService.getFallbackSongs()`. -/
def getFallbackSongs : List Track :=
  [ { id := "fallback_1"
    , title := "Demo Song 1"
    , artist := "Demo Artist"
    , album := "Demo Album"
    , duration := 180
    , audio_url := some "https://www.soundjay.com/misc/sounds/sample.mp3"
    , cover_url := some "https://via.placeholder.com/300x300/1db954/ffffff?text=♪"
    , genre := "Demo"
    , source := some "fallback"
    , release_date := none
    , external_url := none
    , popularity := none
    , explicit := none
    , artist_id := none
    , album_id := none
    , isrc := none } ]

/-- `MusicService.searchJamendo(query, limit = 15)`: any upstream error is
caught and replaced by an empty list. -/
def searchJamendo (jam : String → Int → Except Unit (List JamendoRaw))
    (query : String) (limitArg : Option Int) : List Track :=
  let limit := limitArg.getD 15
  match jam query limit with
  | .ok results => results.map jamendoSearchTrack
  | .error _ => []

/-- `MusicService.searchItunes(query, limit = 10)`: any upstream error is
caught and replaced by an empty list. -/
def searchItunes (itu : String → Int → Except Unit (List ItunesRaw))
    (query : String) (limitArg : Option Int) : List Track :=
  let limit := limitArg.getD 10
  match itu query limit with
  | .ok results => results.map itunesSearchTrack
  | .error _ => []

/-- `Math.ceil(limit * 0.7)`.  Modeled as the exact rational ceiling
`⌈7·limit/10⌉`; for the integer limits that reach this code the IEEE-754
double computation agrees (the rounded product never crosses an integer
boundary). -/
def jamendoShare (limit : Int) : Int := -((-(7 * limit)).fdiv 10)

/-- `Math.ceil(limit * 0.3)`, modeled as `⌈3·limit/10⌉` (see jamendoShare). -/
def itunesShare (limit : Int) : Int := -((-(3 * limit)).fdiv 10)

/-- `MusicService.searchSongs(query, limit = 20)`: `Promise.all` over the
two sub-searches (each of which swallows its own failures, so the
`Promise.all` itself never rejects), concatenation, then `slice(0, limit)`. -/
def searchSongs (jam : String → Int → Except Unit (List JamendoRaw))
    (itu : String → Int → Except Unit (List ItunesRaw))
    (query : String) (limitArg : Option Int) : List Track :=
  let limit := limitArg.getD 20
  let jamendoResults := searchJamendo jam query (some (jamendoShare limit))
  let itunesResults := searchItunes itu query (some (itunesShare limit))
  jsSliceTo (jamendoResults ++ itunesResults) limit

/-- `MusicService.getTrendingSongs(limit = 20)`: on upstream failure the
canned fallback list is returned (1-hour cache elided). -/
def getTrendingSongs (jam : Int → Except Unit (List JamendoRaw))
    (limitArg : Option Int) : List Track :=
  match jam (limitArg.getD 20) with
  | .ok results => results.map jamendoTrendingTrack
  | .error _ => getFallbackSongs

/-- `MusicService.getSongsByGenre(genre, limit = 20)`: on upstream failure
an empty list is returned (cache elided). -/
def getSongsByGenre (jam : String → Int → Except Unit (List JamendoRaw))
    (genre : String) (limitArg : Option Int) : List Track :=
  match jam genre (limitArg.getD 20) with
  | .ok results => results.map (jamendoGenreTrack genre)
  | .error _ => []

/-! ## Spotify provider (src/services/spotifyService.js) -/

/-- A raw Spotify artist object (`{ name, id }`). -/
structure SpotifyArtist where
  name : String
  id : String
deriving Repr, DecidableEq

/-- A raw Spotify album object, with the fields `formatTrack` reads
(`images` reduced to the url strings). -/
structure SpotifyAlbum where
  name : String
  images : List String
  genres : Option (List String)
  release_date : String
  id : String
deriving Repr, DecidableEq

/-- A raw Spotify track object, with the fields `formatTrack` reads
(`external_urls.spotify` and `external_ids?.isrc` collapsed). -/
structure SpotifyRaw where
  id : String
  name : String
  artists : List SpotifyArtist
  album : SpotifyAlbum
  preview_url : Option String
  duration_ms : Int
  external_url : String
  popularity : Option Int
  explicit : Bool
  isrc : Option String
deriving Repr, DecidableEq

/-- JS `array.join(sep)`. -/
def jsJoin (sep : String) : List String → String
  | [] => ""
  | [s] => s
  | s :: rest => s ++ sep ++ jsJoin sep rest

/-- `SpotifyService.formatTrack`: returns `null` for a missing/falsy id,
otherwise the normalized track.  The Spotify id is passed through unchanged
(no provider namespace), and no `source` field is set. -/
def formatTrack (t : SpotifyRaw) : Option Track :=
  if t.id = "" then none
  else some
    { id := t.id
    , title := t.name
    , artist := jsJoin ", " (t.artists.map SpotifyArtist.name)
    , album := t.album.name
    , cover_url := some (jsOrString t.album.images.head?
        "https://via.placeholder.com/300x300/1db954/ffffff?text=♪")
    , audio_url := t.preview_url
    , duration := t.duration_ms.fdiv 1000
    , external_url := some t.external_url
    , popularity := some (jsOrInt t.popularity 0)
    , explicit := some t.explicit
    , genre := jsOrString (t.album.genres.bind List.head?) "Unknown"
    , release_date := some t.album.release_date
    , artist_id := (t.artists.head?).map SpotifyArtist.id
    , album_id := some t.album.id
    , source := none
    , isrc := t.isrc }

/-- The filter/map/filter(Boolean) pipeline applied to a batch of raw
Spotify items in `searchTracks` and `getTrendingTracks`. -/
def formatBatch (items : List SpotifyRaw) : List Track :=
  ((items.filter (fun t => t.id ≠ "")).map formatTrack).reduceOption

/-- The five broad search terms of `SpotifyService.getTrendingTracks`. -/
def basicSearches : List String := ["a", "the", "love", "song", "music"]

/-- The `for (const searchTerm of basicSearches)` accumulation loop of
`SpotifyService.getTrendingTracks`: a failed request (`.error`) just
continues; a batch with a non-empty `items` array is appended and the loop
breaks once the accumulator reaches `limit`. -/
def spotifyTrendingLoop (resp : String → Except Unit (List SpotifyRaw))
    (limit : Int) : List String → List Track → List Track
  | [], acc => acc
  | term :: rest, acc =>
    match resp term with
    | .error _ => spotifyTrendingLoop resp limit rest acc
    | .ok items =>
      if 0 < items.length then
        let tracks := formatBatch items
        let acc' := acc ++ tracks
        if limit ≤ (acc'.length : Int) then acc'
        else spotifyTrendingLoop resp limit rest acc'
      else spotifyTrendingLoop resp limit rest acc

/-- The dedup step of `SpotifyService.getTrendingTracks`:
`allTracks.filter((track, index, self) => self.findIndex(t => t.id === track.id) === index)`,
keeping the first occurrence of each id. -/
def dedupeById (l : List Track) : List Track :=
  (l.enum.filter (fun p => l.findIdx (fun u => u.id == p.2.id) == p.1)).map (fun p => p.2)

/-- `SpotifyService.getTrendingTracks(limit = 50)`: accumulate the broad
search batches, deduplicate by id, `slice(0, limit)`. -/
def spotifyGetTrendingTracks (resp : String → Except Unit (List SpotifyRaw))
    (limitArg : Option Int) : List Track :=
  let limit := limitArg.getD 50
  let allTracks := spotifyTrendingLoop resp limit basicSearches []
  jsSliceTo (dedupeById allTracks) limit

/-! ## Mode switching (src/routes/musicRoutes.js, POST /switch-mode) -/

/-- The mutable `serviceInfo` binding of musicRoutes.js. -/
structure ServiceInfo where
  name : String
  type : String
  description : String
  icon : String
  mode : String
deriving Repr, DecidableEq

/-- `serviceInfo` after a successful switch to demo mode. -/
def demoSwitchedInfo : ServiceInfo :=
  ⟨"Demo Music Service", "demo", "Switched to development mode", "🎭", "Development"⟩

/-- `serviceInfo` after a successful switch to spotify mode. -/
def spotifySwitchedInfo : ServiceInfo :=
  ⟨"Spotify Web API", "spotify", "Switched to production mode", "🎵", "Production"⟩

/-- The HTTP response of the switch-mode route: a 400 validation error
listing the valid modes, or a 200 success payload. -/
inductive SwitchResult where
  | invalidMode (validModes : List String) (current : String)
  | success (message : String)
deriving Repr, DecidableEq

/-- Whether a `SwitchResult` is the 200 success payload. -/
def SwitchResult.isSuccess : SwitchResult → Bool
  | .success _ => true
  | .invalidMode _ _ => false

/-- The POST /switch-mode handler as a state transition on `serviceInfo`.
`useDemoMode` is the module-level `USE_DEMO_MODE` constant captured at
startup (the handler's `oldMode` reads it, not the current state).  The two
`require(...)` calls re-load already-resolved modules and cannot fail, so
the `switchError` branch is unreachable. -/
def switchMode (useDemoMode : Bool) (st : ServiceInfo) (mode : String) :
    ServiceInfo × SwitchResult :=
  if mode ∈ (["demo", "spotify"] : List String) then
    let newInfo := if mode = "demo" then demoSwitchedInfo else spotifySwitchedInfo
    (newInfo, .success ("Successfully switched from " ++
      (if useDemoMode then "demo" else "spotify") ++ " to " ++ mode ++ " mode"))
  else
    (st, .invalidMode ["demo", "spotify"] st.type)

/-! ## Concrete sample inputs used by witnesses and counterexamples -/

/-- A sample raw Jamendo record with a bare numeric-style id. -/
def sampleJamendoRaw : JamendoRaw :=
  { id := "12345", name := "Sample Song", artist_name := "Sample Artist"
  , album_name := "Sample Album", duration := 200
  , audio := some "https://jamendo.example/a.mp3"
  , album_image := some "https://jamendo.example/cover.jpg", image := none
  , genre0 := some "rock", releasedate := some "2020-01-01" }

/-- A sample raw iTunes record. -/
def sampleItunesRaw : ItunesRaw :=
  { trackId := 77, trackName := "Sample Tune", artistName := "Sample Band"
  , collectionName := "Sample Collection", trackTimeMillis := 215500
  , previewUrl := some "https://itunes.example/p.m4a"
  , artworkUrl100 := some "https://itunes.example/100x100bb.jpg"
  , primaryGenreName := "Pop" }

/-- A sample raw Spotify record. -/
def sampleSpotifyRaw : SpotifyRaw :=
  { id := "3n3Ppam7vgaVa1iaRUc9Lp", name := "Mr. Brightside"
  , artists := [⟨"The Killers", "0C0XlULifJtAgn6ZNCW2eu"⟩]
  , album := ⟨"Hot Fuss", ["https://i.scdn.co/image/x"], none, "2004-06-15", "6TJmQnO44YE5BtTxH8pop1"⟩
  , preview_url := none, duration_ms := 222075
  , external_url := "https://open.spotify.com/track/3n3Ppam7vgaVa1iaRUc9Lp"
  , popularity := some 77, explicit := false, isrc := some "USIR20400274" }

/-- A Jamendo search oracle that always succeeds with one record. -/
def jamOkSample : String → Int → Except Unit (List JamendoRaw) :=
  fun _ _ => Except.ok [sampleJamendoRaw]

/-- A Jamendo search oracle that always fails. -/
def jamFailSample : String → Int → Except Unit (List JamendoRaw) :=
  fun _ _ => Except.error ()

/-- An iTunes search oracle that always succeeds with one record. -/
def ituOkSample : String → Int → Except Unit (List ItunesRaw) :=
  fun _ _ => Except.ok [sampleItunesRaw]

/-- An iTunes search oracle that always fails. -/
def ituFailSample : String → Int → Except Unit (List ItunesRaw) :=
  fun _ _ => Except.error ()

/-- A Spotify search oracle that always returns the same single record. -/
def spotOkSample : String → Except Unit (List SpotifyRaw) :=
  fun _ => Except.ok [sampleSpotifyRaw]

/-! ## Shared helper lemmas -/

theorem jsSliceTo_eq_take (l : List α) {stop : Int} (h : 0 ≤ stop) :
    jsSliceTo l stop = l.take stop.toNat := by
  unfold jsSliceTo
  rw [if_neg (by omega)]

theorem jsSliceTo_exists_take (l : List α) (stop : Int) :
    ∃ k, jsSliceTo l stop = l.take k := by
  unfold jsSliceTo
  split <;> exact ⟨_, rfl⟩

theorem jsSliceTo_length_le (l : List α) {stop : Int} (h : 0 ≤ stop) :
    (jsSliceTo l stop).length ≤ stop.toNat := by
  rw [jsSliceTo_eq_take l h]
  exact List.length_take_le _ _

theorem isPrefixOf_refl (l : List Char) : l.isPrefixOf l = true := by
  induction l with
  | nil => rfl
  | cons c rest ih => simp [ih]

theorem listIncludes_self (l : List Char) : listIncludes l l = true := by
  cases l with
  | nil => rfl
  | cons c rest => simp [listIncludes, isPrefixOf_refl]

theorem jsIncludes_self (s : String) : jsIncludes s s = true :=
  listIncludes_self s.data

theorem seedAt_mod (i : Nat) : seedAt (i % popularSongs.length) = seedAt i := by
  simp [seedAt, Nat.mod_mod_of_dvd]

/-! ## Claim C1 -/

/-- Claim C1: for every query and every positive limit, the aggregate
`searchSongs` is the concatenation of the Jamendo sub-search (allotted
`⌈0.7·limit⌉`) followed by the iTunes sub-search (allotted `⌈0.3·limit⌉`),
truncated to at most `limit` tracks, so the caller never receives more
tracks than requested.  (The two sub-calls are issued under `Promise.all`;
their concurrency is a scheduling property, the data flow is proved.) -/
theorem claimC1_search_fanout
    (jam : String → Int → Except Unit (List JamendoRaw))
    (itu : String → Int → Except Unit (List ItunesRaw))
    (query : String) (limit : Int) (h : 0 < limit) :
    searchSongs jam itu query (some limit) =
      jsSliceTo (searchJamendo jam query (some (jamendoShare limit)) ++
                 searchItunes itu query (some (itunesShare limit))) limit
    ∧ (searchSongs jam itu query (some limit)).length ≤ limit.toNat := by
  refine ⟨rfl, ?_⟩
  exact jsSliceTo_length_le _ (le_of_lt h)

/-- Witness for C1 at concrete oracles, query and limit. -/
theorem claimC1_witness :
    searchSongs jamOkSample ituOkSample "love" (some 10) =
      jsSliceTo (searchJamendo jamOkSample "love" (some (jamendoShare 10)) ++
                 searchItunes ituOkSample "love" (some (itunesShare 10))) 10
    ∧ (searchSongs jamOkSample ituOkSample "love" (some 10)).length ≤ (10 : Int).toNat :=
  claimC1_search_fanout jamOkSample ituOkSample "love" 10 (by decide)

/-! ## Claim C2 -/

/-- Claim C2: if exactly one of the two upstream sub-calls of the aggregate
search fails, the result is exactly the surviving upstream's (mapped)
tracks truncated to the requested limit.  The failing sub-call is absorbed
inside `searchJamendo`/`searchItunes` (which return an empty partial
result), so `searchSongs` — a total function in this embedding, as in the
code where the inner catch prevents `Promise.all` from rejecting — never
surfaces the error. -/
theorem claimC2_partial_failure
    (jam : String → Int → Except Unit (List JamendoRaw))
    (itu : String → Int → Except Unit (List ItunesRaw))
    (query : String) (limit : Int) :
    (∀ e, jam query (jamendoShare limit) = Except.error e →
      searchSongs jam itu query (some limit) =
        jsSliceTo (searchItunes itu query (some (itunesShare limit))) limit)
    ∧ (∀ e, itu query (itunesShare limit) = Except.error e →
      searchSongs jam itu query (some limit) =
        jsSliceTo (searchJamendo jam query (some (jamendoShare limit))) limit) := by
  constructor
  · intro e he
    unfold searchSongs searchJamendo
    simp only [Option.getD]
    rw [he]
    simp
  · intro e he
    unfold searchSongs searchItunes
    simp only [Option.getD]
    rw [he]
    simp

/-- Witness for C2: the Jamendo sub-call fails, iTunes survives. -/
theorem claimC2_witness :
    searchSongs jamFailSample ituOkSample "love" (some 10) =
      jsSliceTo (searchItunes ituOkSample "love" (some (itunesShare 10))) 10 :=
  (claimC2_partial_failure jamFailSample ituOkSample "love" 10).1 () rfl

/-! ## Claim C3 -/

/-- Claim C3 counterexample: the demo generator's tracks carry no
source-provider field at all (`source = none`), so "sourceProvider ==
demo" fails on every track of a concrete `getTrendingTracks(5)` call. -/
theorem claimC3_counterexample :
    (demoGetTrendingTracks zeroRand (some 5)).map Track.source =
      [none, none, none, none, none]
    ∧ (none : Option String) ≠ some "demo" := by
  constructor
  · rfl
  · intro h
    exact Option.noConfusion h

/-- Claim C3 (amended): for every positive limit `n`, the demo provider's
`getTrendingTracks(n)` returns exactly `n` tracks, and every returned track
has a non-negative duration, a non-null (non-empty) title and artist, and
an id in the `demo_` namespace — but no source-provider field is set
(`source = none`), there is no `sourceProvider == "demo"` marker. -/
theorem claimC3_demo_trending (r : DemoRand) (n : Int) (h : 0 < n) :
    ((demoGetTrendingTracks r (some n)).length : Int) = n
    ∧ ∀ t ∈ demoGetTrendingTracks r (some n),
        0 ≤ t.duration ∧ t.title ≠ "" ∧ t.artist ≠ "" ∧ t.source = none
        ∧ ∃ rest, t.id = "demo_" ++ rest := by
  constructor
  · simp [demoGetTrendingTracks]
    omega
  · intro t ht
    rcases List.mem_map.mp ht with ⟨i, _, rfl⟩
    have hseed : seedAt i ∈ popularSongs := by
      unfold seedAt
      exact List.get_mem _ _ _
    have hcat : ∀ s ∈ popularSongs, s.title ≠ "" ∧ s.artist ≠ "" := by decide
    refine ⟨?_, (hcat _ hseed).1, (hcat _ hseed).2, rfl, toString (i + 1), rfl⟩
    have h0 : (0 : Int) ≤ ((r.durDraw i : Nat) : Int) := Int.natCast_nonneg _
    show (0 : Int) ≤ 180 + ((r.durDraw i : Nat) : Int)
    omega

/-- Witness for the amended C3 at `n = 5` with the all-zero random stream. -/
theorem claimC3_witness :
    ((demoGetTrendingTracks zeroRand (some 5)).length : Int) = 5
    ∧ ∀ t ∈ demoGetTrendingTracks zeroRand (some 5),
        0 ≤ t.duration ∧ t.title ≠ "" ∧ t.artist ≠ "" ∧ t.source = none
        ∧ ∃ rest, t.id = "demo_" ++ rest :=
  claimC3_demo_trending zeroRand 5 (by decide)

/-! ## Claim C9 -/

/-- Claim C9 counterexample: `getCategories(-1)` (reachable through the
route's `parseInt`) returns 7 categories via JS negative-end `slice`
semantics, not `min(-1, 8)`. -/
theorem claimC9_counterexample :
    (demoGetCategories (some (-1))).length = 7
    ∧ ((demoGetCategories (some (-1))).length : Int) ≠ min (-1 : Int) 8 := by
  constructor
  · rfl
  · decide

/-- Claim C9 (amended): for every limit ≥ 0, `getCategories(limit)` returns
exactly `min(limit, 8)` categories (so any limit greater than 8, including
the default 20, yields 8); for every limit — negative ones included — the
result is a prefix (`take`) of the fixed 8-element catalog. -/
theorem claimC9_categories (limitArg : Option Int) (limit : Int) (h : 0 ≤ limit) :
    (∃ k, demoGetCategories limitArg = demoCategories.take k)
    ∧ (demoGetCategories (some limit)).length = min limit.toNat 8
    ∧ (demoGetCategories none).length = 8 := by
  refine ⟨jsSliceTo_exists_take _ _, ?_, rfl⟩
  show (jsSliceTo demoCategories limit).length = min limit.toNat 8
  rw [jsSliceTo_eq_take _ h, List.length_take]
  rfl

/-- Witness for the amended C9 at limits 20 and 3. -/
theorem claimC9_witness :
    (∃ k, demoGetCategories (some 20) = demoCategories.take k)
    ∧ (demoGetCategories (some 3)).length = min (3 : Int).toNat 8
    ∧ (demoGetCategories none).length = 8 :=
  claimC9_categories (some 20) 3 (by decide)

/-! ## Claim C10 -/

/-- Claim C10: the demo provider's `getRecommendations(seedGenres, limit)`
ignores `seedGenres` entirely — for any two seed lists (same randomness,
same limit) the outputs are identical — and equals the first
`min(limit, 50)` generated trending tracks (the JS `slice(0, limit)` of a
50-track pool, for non-negative limits). -/
theorem claimC10_recommendations (r : DemoRand)
    (seeds₁ seeds₂ : Option (List String)) (limitArg : Option Int)
    (limit : Int) (h : 0 ≤ limit) :
    demoGetRecommendations r seeds₁ limitArg = demoGetRecommendations r seeds₂ limitArg
    ∧ demoGetRecommendations r seeds₁ limitArg =
        jsSliceTo (demoGetTrendingTracks r (some 50)) (limitArg.getD 20)
    ∧ demoGetRecommendations r seeds₁ (some limit) =
        (demoGetTrendingTracks r (some 50)).take limit.toNat
    ∧ (demoGetRecommendations r seeds₁ (some limit)).length = min limit.toNat 50 := by
  refine ⟨rfl, rfl, jsSliceTo_eq_take _ h, ?_⟩
  show (jsSliceTo (demoGetTrendingTracks r (some 50)) limit).length = min limit.toNat 50
  rw [jsSliceTo_eq_take _ h, List.length_take]
  simp [demoGetTrendingTracks]

/-- Witness for C10: two different seed lists, limit 7. -/
theorem claimC10_witness :
    demoGetRecommendations zeroRand (some ["jazz"]) (some 7) =
      demoGetRecommendations zeroRand (some ["metal", "pop"]) (some 7)
    ∧ demoGetRecommendations zeroRand (some ["jazz"]) (some 7) =
        jsSliceTo (demoGetTrendingTracks zeroRand (some 50)) ((some (7 : Int)).getD 20)
    ∧ demoGetRecommendations zeroRand (some ["jazz"]) (some 7) =
        (demoGetTrendingTracks zeroRand (some 50)).take (7 : Int).toNat
    ∧ (demoGetRecommendations zeroRand (some ["jazz"]) (some 7)).length = min (7 : Int).toNat 50 :=
  claimC10_recommendations zeroRand (some ["jazz"]) (some ["metal", "pop"]) (some 7) 7 (by decide)

/-! ## Claim C6 -/

/-- Claim C6: calling `switchMode("demo")` twice in a row yields the same
active service state after each call and a success response both times;
more generally, for any valid target mode, re-requesting the mode that the
previous call just installed leaves the state unchanged and returns
success. -/
theorem claimC6_switch_idempotent (useDemoMode : Bool) (st : ServiceInfo)
    (mode : String) (hm : mode = "demo" ∨ mode = "spotify") :
    (switchMode useDemoMode (switchMode useDemoMode st "demo").1 "demo").1 =
      (switchMode useDemoMode st "demo").1
    ∧ (switchMode useDemoMode st "demo").2.isSuccess = true
    ∧ (switchMode useDemoMode (switchMode useDemoMode st "demo").1 "demo").2.isSuccess = true
    ∧ (switchMode useDemoMode (switchMode useDemoMode st mode).1 mode).1 =
      (switchMode useDemoMode st mode).1
    ∧ (switchMode useDemoMode (switchMode useDemoMode st mode).1 mode).2.isSuccess = true := by
  rcases hm with h | h <;> subst h <;>
    simp [switchMode, SwitchResult.isSuccess]

/-- Witness for C6 starting from the spotify state, target "spotify". -/
theorem claimC6_witness :
    (switchMode true (switchMode true spotifySwitchedInfo "demo").1 "demo").1 =
      (switchMode true spotifySwitchedInfo "demo").1
    ∧ (switchMode true spotifySwitchedInfo "demo").2.isSuccess = true
    ∧ (switchMode true (switchMode true spotifySwitchedInfo "demo").1 "demo").2.isSuccess = true
    ∧ (switchMode true (switchMode true spotifySwitchedInfo "spotify").1 "spotify").1 =
      (switchMode true spotifySwitchedInfo "spotify").1
    ∧ (switchMode true (switchMode true spotifySwitchedInfo "spotify").1 "spotify").2.isSuccess = true :=
  claimC6_switch_idempotent true spotifySwitchedInfo "spotify" (Or.inr rfl)

/-! ## Claim C8 -/

/-- Claim C8 counterexample: a limit ≤ 0 is NOT replaced by the documented
default — `getTrendingTracks(0)` on the demo provider returns an empty
list, while the omitted-argument default (50) returns 50 tracks. -/
theorem claimC8_counterexample :
    (demoGetTrendingTracks zeroRand (some 0)).length = 0
    ∧ (demoGetTrendingTracks zeroRand none).length = 50 := by
  constructor
  · rfl
  · simp [demoGetTrendingTracks]

/-- Claim C8 (amended): the documented defaults are JS default parameters,
applied only when the limit argument is omitted (demo trending 50, demo
search 20, aggregate search 20, categories 20, recommendations 20).  A
passed limit ≤ 0 is used as-is: the demo generator then returns an empty
list.  For every limit ≥ 0, the returned sequence length never exceeds the
limit. -/
theorem claimC8_limit_defaults (r : DemoRand) (q : String)
    (jam : String → Int → Except Unit (List JamendoRaw))
    (itu : String → Int → Except Unit (List ItunesRaw))
    (limit negLimit : Int) (hpos : 0 ≤ limit) (hneg : negLimit ≤ 0) :
    demoGetTrendingTracks r none = demoGetTrendingTracks r (some 50)
    ∧ demoSearchTracks r q none = demoSearchTracks r q (some 20)
    ∧ searchSongs jam itu q none = searchSongs jam itu q (some 20)
    ∧ demoGetCategories none = demoGetCategories (some 20)
    ∧ demoGetRecommendations r none none = demoGetRecommendations r (some ["pop"]) (some 20)
    ∧ (demoGetTrendingTracks r (some limit)).length ≤ limit.toNat
    ∧ ((demoSearchTracks r q (some limit)).tracks).length ≤ limit.toNat
    ∧ (searchSongs jam itu q (some limit)).length ≤ limit.toNat
    ∧ (demoGetCategories (some limit)).length ≤ limit.toNat
    ∧ (demoGetRecommendations r none (some limit)).length ≤ limit.toNat
    ∧ demoGetTrendingTracks r (some negLimit) = [] := by
  refine ⟨rfl, rfl, rfl, rfl, rfl, ?_, ?_, ?_, ?_, ?_, ?_⟩
  · simp [demoGetTrendingTracks]
  · exact jsSliceTo_length_le _ hpos
  · exact jsSliceTo_length_le _ hpos
  · exact jsSliceTo_length_le _ hpos
  · exact jsSliceTo_length_le _ hpos
  · have : negLimit.toNat = 0 := Int.toNat_of_nonpos hneg
    simp [demoGetTrendingTracks, this]

/-- Witness for the amended C8 at limit 5 and negative limit -3. -/
theorem claimC8_witness :
    demoGetTrendingTracks zeroRand none = demoGetTrendingTracks zeroRand (some 50)
    ∧ demoSearchTracks zeroRand "love" none = demoSearchTracks zeroRand "love" (some 20)
    ∧ searchSongs jamOkSample ituOkSample "love" none =
        searchSongs jamOkSample ituOkSample "love" (some 20)
    ∧ demoGetCategories none = demoGetCategories (some 20)
    ∧ demoGetRecommendations zeroRand none none =
        demoGetRecommendations zeroRand (some ["pop"]) (some 20)
    ∧ (demoGetTrendingTracks zeroRand (some 5)).length ≤ (5 : Int).toNat
    ∧ ((demoSearchTracks zeroRand "love" (some 5)).tracks).length ≤ (5 : Int).toNat
    ∧ (searchSongs jamOkSample ituOkSample "love" (some 5)).length ≤ (5 : Int).toNat
    ∧ (demoGetCategories (some 5)).length ≤ (5 : Int).toNat
    ∧ (demoGetRecommendations zeroRand none (some 5)).length ≤ (5 : Int).toNat
    ∧ demoGetTrendingTracks zeroRand (some (-3)) = [] :=
  claimC8_limit_defaults zeroRand "love" jamOkSample ituOkSample 5 (-3)
    (by decide) (by decide)

/-! ## Claim C4 -/

/-- Claim C4 counterexample: `getTrendingSongs` (Jamendo trending) passes
the upstream id through unchanged, so a concrete response with id "12345"
yields a track whose id has no `jamendo_` provider namespace. -/
theorem claimC4_counterexample :
    ∃ t ∈ getTrendingSongs (fun _ => Except.ok [sampleJamendoRaw]) (some 20),
      t.source = some "jamendo" ∧ ¬ ∃ rest, t.id = "jamendo_" ++ rest := by
  refine ⟨jamendoTrendingTrack sampleJamendoRaw, ?_, rfl, ?_⟩
  · simp [getTrendingSongs]
  · rintro ⟨rest, h⟩
    have hid : (jamendoTrendingTrack sampleJamendoRaw).id = "12345" := rfl
    rw [hid] at h
    have hlen := congrArg String.length h
    rw [String.length_append] at hlen
    have e5 : ("12345" : String).length = 5 := rfl
    have e8 : ("jamendo_" : String).length = 8 := rfl
    rw [e5, e8] at hlen
    omega

/-- Claim C4 (amended): ids are provider-prefixed on the aggregate
provider's search path (`jamendo_`, `itunes_`), the demo generator
(`demo_`) and the fallback list (`fallback_`); the Jamendo trending and
genre operations and the commercial provider's `formatTrack` return the
upstream id unchanged, with no provider namespace. -/
theorem claimC4_id_namespaces :
    (∀ (jam : String → Int → Except Unit (List JamendoRaw)) (q : String) (la : Option Int),
      ∀ t ∈ searchJamendo jam q la, ∃ rest, t.id = "jamendo_" ++ rest)
    ∧ (∀ (itu : String → Int → Except Unit (List ItunesRaw)) (q : String) (la : Option Int),
      ∀ t ∈ searchItunes itu q la, ∃ rest, t.id = "itunes_" ++ rest)
    ∧ (∀ (r : DemoRand) (la : Option Int),
      ∀ t ∈ demoGetTrendingTracks r la, ∃ rest, t.id = "demo_" ++ rest)
    ∧ (∀ t ∈ getFallbackSongs, ∃ rest, t.id = "fallback_" ++ rest)
    ∧ (∀ (raws : List JamendoRaw) (la : Option Int),
      (getTrendingSongs (fun _ => Except.ok raws) la).map Track.id = raws.map JamendoRaw.id)
    ∧ (∀ (genre : String) (raws : List JamendoRaw) (la : Option Int),
      (getSongsByGenre (fun _ _ => Except.ok raws) genre la).map Track.id = raws.map JamendoRaw.id)
    ∧ (∀ t : SpotifyRaw, t.id ≠ "" → (formatTrack t).map Track.id = some t.id) := by
  refine ⟨?_, ?_, ?_, ?_, ?_, ?_, ?_⟩
  · intro jam q la t ht
    simp only [searchJamendo] at ht
    cases hj : jam q (la.getD 15) with
    | ok rs =>
      rw [hj] at ht
      rcases List.mem_map.mp ht with ⟨raw, _, rfl⟩
      exact ⟨raw.id, rfl⟩
    | error e =>
      rw [hj] at ht
      cases ht
  · intro itu q la t ht
    simp only [searchItunes] at ht
    cases hi : itu q (la.getD 10) with
    | ok rs =>
      rw [hi] at ht
      rcases List.mem_map.mp ht with ⟨raw, _, rfl⟩
      exact ⟨toString raw.trackId, rfl⟩
    | error e =>
      rw [hi] at ht
      cases ht
  · intro r la t ht
    simp only [demoGetTrendingTracks] at ht
    rcases List.mem_map.mp ht with ⟨i, _, rfl⟩
    exact ⟨toString (i + 1), rfl⟩
  · intro t ht
    simp only [getFallbackSongs, List.mem_singleton] at ht
    subst ht
    exact ⟨"1", by decide⟩
  · intro raws la
    simp only [getTrendingSongs, List.map_map]
    exact List.map_congr_left (fun a _ => rfl)
  · intro genre raws la
    simp only [getSongsByGenre, List.map_map]
    exact List.map_congr_left (fun a _ => rfl)
  · intro t h
    rw [formatTrack, if_neg h]
    rfl

/-- Witness for the amended C4 at concrete records for each prefixed path. -/
theorem claimC4_witness :
    (∃ rest, (jamendoSearchTrack sampleJamendoRaw).id = "jamendo_" ++ rest)
    ∧ (∃ rest, (itunesSearchTrack sampleItunesRaw).id = "itunes_" ++ rest)
    ∧ (∃ rest, (mkDemoTrack zeroRand 0).id = "demo_" ++ rest)
    ∧ (formatTrack sampleSpotifyRaw).map Track.id = some sampleSpotifyRaw.id := by
  refine ⟨claimC4_id_namespaces.1 jamOkSample "q" none _ ?_,
          claimC4_id_namespaces.2.1 ituOkSample "q" none _ ?_,
          claimC4_id_namespaces.2.2.1 zeroRand (some 1) _ ?_,
          claimC4_id_namespaces.2.2.2.2.2.2 sampleSpotifyRaw (by decide)⟩
  · simp [searchJamendo, jamOkSample]
  · simp [searchItunes, ituOkSample]
  · simp [demoGetTrendingTracks]

/-! ## Claim C5 -/

theorem dedupeById_id_nodup (l : List Track) : ((dedupeById l).map Track.id).Nodup := by
  unfold dedupeById
  rw [List.map_map, List.Nodup, List.pairwise_map]
  have h₀ : (l.enum.map Prod.fst).Nodup := by
    rw [List.enum_map_fst]
    exact List.nodup_range _
  rw [List.Nodup, List.pairwise_map] at h₀
  have h₁ := h₀.filter (fun p => l.findIdx (fun u => u.id == p.2.id) == p.1)
  refine h₁.imp_of_mem ?_
  intro a b ha hb hne heq
  have hqa := (List.mem_filter.mp ha).2
  have hqb := (List.mem_filter.mp hb).2
  have ea : l.findIdx (fun u => u.id == a.2.id) = a.1 := by
    exact Nat.eq_of_beq_eq_true (by simpa using hqa)
  have eb : l.findIdx (fun u => u.id == b.2.id) = b.1 := by
    exact Nat.eq_of_beq_eq_true (by simpa using hqb)
  apply hne
  have hid : a.2.id = b.2.id := heq
  rw [← ea, ← eb, hid]

/-- Claim C5: the commercial provider's trending approximation never
returns two tracks with the same id in one response (for any upstream
batches and any limit), and for every limit ≥ 0 the response holds at most
`limit` tracks. -/
theorem claimC5_trending_dedup (resp : String → Except Unit (List SpotifyRaw))
    (limitArg : Option Int) (limit : Int) (h : 0 ≤ limit) :
    ((spotifyGetTrendingTracks resp limitArg).map Track.id).Nodup
    ∧ (spotifyGetTrendingTracks resp (some limit)).length ≤ limit.toNat := by
  constructor
  · show ((jsSliceTo (dedupeById (spotifyTrendingLoop resp (limitArg.getD 50) basicSearches []))
      (limitArg.getD 50)).map Track.id).Nodup
    rcases jsSliceTo_exists_take
        (dedupeById (spotifyTrendingLoop resp (limitArg.getD 50) basicSearches []))
        (limitArg.getD 50) with ⟨k, hk⟩
    rw [hk, List.map_take]
    exact (dedupeById_id_nodup _).sublist (List.take_sublist _ _)
  · exact jsSliceTo_length_le _ h

/-- Witness for C5 at a concrete oracle and limit 3. -/
theorem claimC5_witness :
    ((spotifyGetTrendingTracks spotOkSample (some 3)).map Track.id).Nodup
    ∧ (spotifyGetTrendingTracks spotOkSample (some 3)).length ≤ (3 : Int).toNat :=
  claimC5_trending_dedup spotOkSample (some 3) 3 (by decide)

/-! ## Claim C7 -/

theorem demoSearch_pool_mem (r' : DemoRand) (q : String) (j : Nat) (hj : j < 20)
    (hp : demoMatches q (mkDemoTrack r' j) = true) :
    mkDemoTrack r' j ∈ (demoSearchTracks r' q (some 20)).tracks := by
  show mkDemoTrack r' j ∈
    jsSliceTo ((demoGetTrendingTracks r' (some 100)).filter (demoMatches q)) 20
  have hpool : demoGetTrendingTracks r' (some 100) =
      (List.range 100).map (mkDemoTrack r') := rfl
  have htake : (List.range 100).take (j + 1) = List.range (j + 1) := by
    rw [List.take_range]
    congr 1
    omega
  have hsplit : List.range 100 = List.range (j + 1) ++ (List.range 100).drop (j + 1) := by
    conv_lhs => rw [← List.take_append_drop (j + 1) (List.range 100)]
    rw [htake]
  rw [jsSliceTo_eq_take _ (by decide), hpool, hsplit, List.map_append, List.filter_append]
  have h20 : (20 : Int).toNat = 20 := rfl
  rw [h20, List.take_append_eq_append_take]
  have hAlen : (((List.range (j + 1)).map (mkDemoTrack r')).filter (demoMatches q)).length ≤ 20 := by
    refine le_trans (List.length_filter_le _ _) ?_
    simp
    omega
  rw [List.take_of_length_le hAlen]
  apply List.mem_append_left
  exact List.mem_filter.mpr
    ⟨List.mem_map.mpr ⟨j, List.mem_range.mpr (Nat.lt_succ_self j), rfl⟩, hp⟩

/-- Claim C7: every track the demo trending generator produces re-appears
when its own title (resp. artist) is used as a search query against the
demo provider (with the search route's default limit 20): the result set
contains a track with that same title (resp. artist). -/
theorem claimC7_roundtrip (r r' : DemoRand) (limitArg : Option Int) (t : Track)
    (ht : t ∈ demoGetTrendingTracks r limitArg) :
    (∃ u ∈ (demoSearchTracks r' t.title (some 20)).tracks, u.title = t.title)
    ∧ (∃ u ∈ (demoSearchTracks r' t.artist (some 20)).tracks, u.artist = t.artist) := by
  simp only [demoGetTrendingTracks] at ht
  rcases List.mem_map.mp ht with ⟨i, _, rfl⟩
  set j := i % popularSongs.length with hjdef
  have hjlt : j < 20 := by
    have hlen : popularSongs.length = 20 := rfl
    rw [hjdef, hlen]
    exact Nat.mod_lt _ (by decide)
  have htitle : (mkDemoTrack r' j).title = (mkDemoTrack r i).title := by
    show (seedAt j).title = (seedAt i).title
    rw [hjdef, seedAt_mod]
  have hartist : (mkDemoTrack r' j).artist = (mkDemoTrack r i).artist := by
    show (seedAt j).artist = (seedAt i).artist
    rw [hjdef, seedAt_mod]
  constructor
  · refine ⟨mkDemoTrack r' j, demoSearch_pool_mem r' _ j hjlt ?_, htitle⟩
    unfold demoMatches
    rw [← htitle]
    simp [jsIncludes_self]
  · refine ⟨mkDemoTrack r' j, demoSearch_pool_mem r' _ j hjlt ?_, hartist⟩
    unfold demoMatches
    rw [← hartist]
    simp [jsIncludes_self]

/-- Witness for C7: the first generated demo track (with the all-zero
random stream) is found again by searching its title and its artist. -/
theorem claimC7_witness :
    (∃ u ∈ (demoSearchTracks zeroRand (mkDemoTrack zeroRand 0).title (some 20)).tracks,
        u.title = (mkDemoTrack zeroRand 0).title)
    ∧ (∃ u ∈ (demoSearchTracks zeroRand (mkDemoTrack zeroRand 0).artist (some 20)).tracks,
        u.artist = (mkDemoTrack zeroRand 0).artist) :=
  claimC7_roundtrip zeroRand zeroRand (some 1) (mkDemoTrack zeroRand 0)
    (List.mem_map.mpr ⟨0, List.mem_range.mpr (by decide), rfl⟩)
